import Mathlib

/-!
Verification development for the blockstream-analyzer repository.

The Python source is shallowly embedded: JSON-like Python values become the
inductive type `Value`, Python dicts become insertion-ordered association
lists, floats become exact rationals (every float literal appearing in the
verified code paths — 5.0, 1.5, 60.0, 300.0, timestamps — is exactly
representable), and fallible Python code returns `Except PyErr`.
-/

namespace BSA

/-- Python error kinds that occur in the embedded code paths. -/
inductive PyErr where
  | nameError : String → PyErr
  | attributeError : String → PyErr
  | indexError : PyErr
  | keyError : String → PyErr
  | typeError : String → PyErr
  deriving Repr, DecidableEq

/-- A Python value as it flows through the analyzer: None, bool, int, float
(modelled as an exact rational), str, list, dict (insertion-ordered
association list keyed by strings, as all dicts in the verified code paths
are). -/
inductive Value where
  | none : Value
  | bool : Bool → Value
  | int : Int → Value
  | float : ℚ → Value
  | str : String → Value
  | list : List Value → Value
  | dict : List (String × Value) → Value
  deriving Repr

/-- Numeric value of a Python bool (`True == 1`, `False == 0`). -/
def boolToInt (b : Bool) : Int := if b then 1 else 0

mutual

/-- Python `==` on the embedded values. Numeric cross-type equality follows
Python (`True == 1`, `0 == 0.0`); values of unrelated types are unequal.
Dict equality is compared pairwise in insertion order; this coincides with
Python dict equality whenever the two dicts list their keys in the same
order, which holds at every dict comparison in the verified code paths. -/
def pyEq : Value → Value → Bool
  | .none, .none => true
  | .bool a, .bool b => a = b
  | .bool a, .int n => boolToInt a = n
  | .bool a, .float q => ((boolToInt a : Int) : ℚ) = q
  | .int m, .bool b => m = boolToInt b
  | .int m, .int n => m = n
  | .int m, .float q => (m : ℚ) = q
  | .float q, .bool b => q = ((boolToInt b : Int) : ℚ)
  | .float q, .int n => q = (n : ℚ)
  | .float p, .float q => p = q
  | .str s, .str t => s = t
  | .list xs, .list ys => pyEqList xs ys
  | .dict xs, .dict ys => pyEqPairs xs ys
  | _, _ => false

/-- Elementwise Python `==` on lists. -/
def pyEqList : List Value → List Value → Bool
  | [], [] => true
  | x :: xs, y :: ys => pyEq x y && pyEqList xs ys
  | _, _ => false

/-- Pairwise equality of association lists (same keys in the same order,
values Python-equal). -/
def pyEqPairs : List (String × Value) → List (String × Value) → Bool
  | [], [] => true
  | (k, v) :: xs, (k', v') :: ys => k = k' && pyEq v v' && pyEqPairs xs ys
  | _, _ => false

end

/-- Python truthiness: `bool(v)`. -/
def pyTruthy : Value → Bool
  | .none => false
  | .bool b => b
  | .int n => n ≠ 0
  | .float q => q ≠ 0
  | .str s => s ≠ ""
  | .list xs => !xs.isEmpty
  | .dict kvs => !kvs.isEmpty

/-- Lookup of a string key in an insertion-ordered association list (first
binding of the key, which is the only one since assignment keeps keys
unique). -/
def alookup : List (String × α) → String → Option α
  | [], _ => Option.none
  | (k, v) :: rest, key => if k = key then some v else alookup rest key

/-- Lookup in a Python dict. -/
def dlookup (d : List (String × Value)) (key : String) : Option Value :=
  alookup d key

/-- Python `d.get(key, default)`. -/
def dget (d : List (String × Value)) (key : String) (default : Value) : Value :=
  (dlookup d key).getD default

/-- Python `d.get(key)` (default `None`). -/
def dgetN (d : List (String × Value)) (key : String) : Value :=
  dget d key Value.none

/-- Python `key in d` for dicts. -/
def dcontains (d : List (String × Value)) (key : String) : Bool :=
  (dlookup d key).isSome

/-- Python dict assignment `d[key] = v`: overwrite in place keeping
insertion order, or append a new binding. -/
def dset : List (String × Value) → String → Value → List (String × Value)
  | [], key, v => [(key, v)]
  | (k, w) :: rest, key, v =>
      if k = key then (key, v) :: rest else (k, w) :: dset rest key v

/-! ## Job Comparator (src/src/analysis/job_comparator.py)

A normalized job is a Python dict. Clock values (`time.time()`) are passed
explicitly as rationals; `job["_processed_at"] = job_timestamp` stores the
clock into the dict as a float, exactly as `process_job` does. The three
analyzers only read the job; they never touch the comparator cache or
match history, so they are not modelled here. -/

/-- A normalized job: a Python dict. -/
abbrev Job := List (String × Value)

/-- Match score of `_find_matching_jobs` (job_comparator.py lines 162-184):
+10 for equal job_id and mining_pool, +8 for equal prev_block_hash, +5 for a
truthy and equal height, +2 each for equal version, bits and time. -/
def matchScore (job other : Job) : Nat :=
  (if pyEq (dgetN job "job_id") (dgetN other "job_id")
      && pyEq (dgetN job "mining_pool") (dgetN other "mining_pool")
   then 10 else 0)
  + (if pyEq (dgetN job "prev_block_hash") (dgetN other "prev_block_hash")
     then 8 else 0)
  + (if pyTruthy (dgetN job "height")
      && pyEq (dgetN job "height") (dgetN other "height")
     then 5 else 0)
  + (if pyEq (dgetN job "version") (dgetN other "version") then 2 else 0)
  + (if pyEq (dgetN job "bits") (dgetN other "bits") then 2 else 0)
  + (if pyEq (dgetN job "time") (dgetN other "time") then 2 else 0)

/-- Inner loop of `_find_matching_jobs`: the first cached job of one other
service whose score reaches the threshold 10 is taken (`break` after the
first append). -/
def firstMatch (job : Job) (jobs : List Job) : Option Job :=
  jobs.find? (fun other => 10 ≤ matchScore job other)

/-- Outer loop of `_find_matching_jobs`: walk the per-feed cache in dict
insertion order, skip the feed of the job itself, and take at most one match per
other feed. -/
def findMatchingJobs (recent : List (String × List Job)) (source : String)
    (job : Job) : List Job :=
  recent.filterMap (fun entry =>
    if entry.1 = source then Option.none else firstMatch job entry.2)

/-- A match record appended to `self.job_matches`. The code stamps the
record with `datetime.utcnow().isoformat()`; `createdAt` holds that same
wall-clock instant as a rational (the processing clock of the call that
created the record). -/
structure MatchRec where
  createdAt : ℚ
  primaryJob : Job
  matchedJobs : List Job
  deriving Repr

/-- Comparator state: the fields of `JobComparator` that `process_job`
reads or writes (analyzer objects and the pools/heights sets aside, which
never feed back into matching). -/
structure CompState where
  timeWindow : ℚ
  windowSize : Nat
  recentJobs : List (String × List Job)
  jobMatches : List MatchRec
  jobsProcessed : Nat
  matchesFound : Nat
  deriving Repr

/-- Initial comparator state (`JobComparator.__init__`): the cache has one
empty entry per known feed, in dict insertion order. -/
def CompState.init (timeWindow : ℚ) (windowSize : Nat) : CompState where
  timeWindow := timeWindow
  windowSize := windowSize
  recentJobs := [("miningpool.observer", []), ("stratum.work", []), ("mempool.space", [])]
  jobMatches := []
  jobsProcessed := 0
  matchesFound := 0

/-- Reading back the float `job.get("_processed_at", 0)`. Every cached job
carries a float `_processed_at` stamped by `process_job` (a non-numeric
value would raise in Python and never occurs). -/
def processedAt (job : Job) : ℚ :=
  match dget job "_processed_at" (Value.int 0) with
  | .float q => q
  | .int n => (n : ℚ)
  | .bool b => ((boolToInt b : Int) : ℚ)
  | _ => 0

/-- Embedding of `_clean_old_jobs`: drop every cached job whose
`_processed_at` precedes `now - time_window`. -/
def cleanOldJobs (st : CompState) (now : ℚ) : CompState :=
  let cutoff := now - st.timeWindow
  { st with recentJobs :=
      st.recentJobs.map (fun entry =>
        (entry.1, entry.2.filter (fun job => cutoff ≤ processedAt job))) }

/-- Python `list[-n:]`. For positive `n` this is the last `n` elements;
for `n = 0` the slice `[-0:]` is `[0:]`, which keeps the entire list. -/
def lastN (l : List MatchRec) (n : Nat) : List MatchRec :=
  if n = 0 then l else l.drop (l.length - n)

/-- Embedding of the match-recording tail of `_find_matching_jobs` (lines
192-205): if matches were found, append a match record, keep only the last
`window_size` records, and bump the counter. -/
def recordMatches (st : CompState) (now : ℚ) (job : Job)
    (found : List Job) : CompState :=
  if found.isEmpty then st
  else
    let jm := st.jobMatches ++ [⟨now, job, found⟩]
    let jm := if st.windowSize < jm.length then lastN jm st.windowSize else jm
    { st with jobMatches := jm, matchesFound := st.matchesFound + 1 }

/-- Appending a job to the cache entry of its own feed. -/
def appendJob (recent : List (String × List Job)) (source : String)
    (job : Job) : List (String × List Job) :=
  recent.map (fun entry =>
    if entry.1 = source then (entry.1, entry.2 ++ [job]) else entry)

/-- Embedding of `process_job` at processing clock `now`: reject unknown
sources; stamp `_processed_at`; append to the cache entry of the source; trim
the cache to the time window; find and record matches. Returns the new
state and the returned match list. -/
def processJob (st : CompState) (job : Job) (now : ℚ) : CompState × List Job :=
  let source := dgetN job "source"
  match source with
  | .str s =>
      if (alookup st.recentJobs s).isSome then
        let st := { st with jobsProcessed := st.jobsProcessed + 1 }
        let job := dset job "_processed_at" (.float now)
        let st := { st with recentJobs := appendJob st.recentJobs s job }
        let st := cleanOldJobs st now
        let found := findMatchingJobs st.recentJobs s job
        (recordMatches st now job found, found)
      else (st, [])
  | _ => (st, [])

/-! ## WebSocket collector base (src/src/collectors/base_client.py)

The `connect` coroutine is embedded as a function of the sequence of
connection-attempt outcomes it observes (true: the connection opened and the
receive loop later ended with the connection closed; false: the attempt
raised). The loop exits when `stop()` has cleared `should_run`, i.e. after
the outcome list is exhausted. Waits (`asyncio.sleep`) are collected
explicitly: note that in the source, lines 88-97 (log, sleep, grow
interval) are indented at the same level as the `while` statement, hence
OUTSIDE the loop body — the loop body itself contains no sleep. -/

/-- Mutable client fields touched by `connect`
(`BaseStratumClient.__init__`). -/
structure ClientState where
  reconnectInterval : ℚ
  initialReconnectInterval : ℚ
  maxReconnectInterval : ℚ
  reconnectFactor : ℚ
  connectionAttempts : Nat
  deriving Repr, DecidableEq

/-- Client state as `__init__` leaves it. -/
def ClientState.mk0 (reconnectInterval maxReconnectInterval reconnectFactor : ℚ) :
    ClientState where
  reconnectInterval := reconnectInterval
  initialReconnectInterval := reconnectInterval
  maxReconnectInterval := maxReconnectInterval
  reconnectFactor := reconnectFactor
  connectionAttempts := 0

/-- The `while self.should_run` body (lines 65-86), one iteration per
attempt: a successful connection resets `reconnect_interval` to the initial
value (line 75) before the receive loop; a failed attempt is caught and
changes nothing. No statement in the body sleeps, so the returned list of
waits performed between attempts is built empty — by the code, not by
assumption. Returns (reconnect_interval after the loop, waits inside the
loop). -/
def connectLoop (initial : ℚ) : List Bool → ℚ → ℚ × List ℚ
  | [], ri => (ri, [])
  | outcome :: rest, ri => connectLoop initial rest (if outcome then initial else ri)

/-- Embedding of `connect` (lines 60-97). Output: (client state when the
coroutine returns, waits performed between connection attempts, the single
wait performed after the loop has exited). `current_interval` is captured
from `reconnect_interval` once, before the loop (line 63); after the loop
the coroutine sleeps that amount once, grows it by the factor capped at the
maximum, and stores it back (lines 89-97). -/
def connect (st : ClientState) (outcomes : List Bool) : ClientState × List ℚ × ℚ :=
  let st := { st with connectionAttempts := st.connectionAttempts + 1 }
  let current := st.reconnectInterval
  let loopResult := connectLoop st.initialReconnectInterval outcomes st.reconnectInterval
  let postLoopWait := current
  -- line 97 stores min(current * factor, max) back into reconnect_interval,
  -- discarding the interval resets made inside the loop (loopResult.1)
  let current := min (current * st.reconnectFactor) st.maxReconnectInterval
  ({ st with reconnectInterval := current }, loopResult.2, postLoopWait)

/-! ## Database manager retention cleanup (src/src/storage/db.py)

Each stored document is reduced to the timestamp the cleanup filters on
(`metadata.received_at` for raw messages, `timestamp` for the other three),
as a rational epoch value: the code compares ISO-8601 strings, whose
lexicographic order agrees with the order of the instants they denote. -/

/-- The four collections of an initialized database. -/
structure DbState where
  rawMessages : List ℚ
  normalizedJobs : List ℚ
  jobMatches : List ℚ
  stats : List ℚ
  deriving Repr, DecidableEq

/-- db.py line 5 imports only the class: `from datetime import datetime`.
That class has no attribute `timedelta`, so the attribute access
`datetime.timedelta` at line 499 raises AttributeError. -/
def datetimeTimedeltaAttr : Except PyErr (Int → ℚ) :=
  .error (.attributeError "timedelta")

/-- Embedding of `collection.delete_many` with a timestamp-lt filter:
documents strictly older than the cutoff are removed; returns the remaining
documents and the deleted count. -/
def deleteOlderThan (docs : List ℚ) (cutoff : ℚ) : List ℚ × Nat :=
  (docs.filter (fun ts => cutoff ≤ ts),
   (docs.filter (fun ts => ts < cutoff)).length)

/-- The `try` body of `cleanup_old_data` (lines 497-524): compute the cutoff
`datetime.utcnow() - datetime.timedelta(days=days_to_keep)`, then delete the
old documents of each collection in turn. The very first step — looking up
`timedelta` on the imported `datetime` class — raises. -/
def cleanup_old_data_body (db : DbState) (now : ℚ) (daysToKeep : Int) :
    Except PyErr DbState := do
  let timedelta ← datetimeTimedeltaAttr
  let cutoff := now - timedelta daysToKeep
  let (raw, _) := deleteOlderThan db.rawMessages cutoff
  let (jobs, _) := deleteOlderThan db.normalizedJobs cutoff
  let (ms, _) := deleteOlderThan db.jobMatches cutoff
  let (sts, _) := deleteOlderThan db.stats cutoff
  pure { rawMessages := raw, normalizedJobs := jobs, jobMatches := ms, stats := sts }

/-- Embedding of `cleanup_old_data` on an initialized database (`self.db`
set): the body runs under `try`; any exception is logged at error level and
swallowed (lines 526-527), leaving every collection unchanged. -/
def cleanup_old_data (db : DbState) (now : ℚ) (daysToKeep : Int) : DbState :=
  match cleanup_old_data_body db now daysToKeep with
  | .ok db' => db'
  | .error _ => db

/-! ## Feed collector constructors (src/src/collectors/observer_client.py,
mempool_client.py)

`_load_config` opens the settings file and parses it; a missing or
unreadable file raises inside `open`, the exception is caught and an empty
dict is returned. `cfgFile` below is `some v` for a readable file parsing
to `v`, `none` for a missing/unreadable file. -/

/-- Shared `_load_config` of both feed clients. -/
def load_config (cfgFile : Option Value) : Value :=
  match cfgFile with
  | some v => v
  | Option.none => .dict []

/-- Python `v.get(key, default)`: on a dict it is a defaulted lookup; on
any non-dict value the attribute access raises. -/
def vget (v : Value) (key : String) (default : Value) : Except PyErr Value :=
  match v with
  | .dict kvs => .ok (dget kvs key default)
  | _ => .error (.attributeError "get")

/-- The argument record a feed-client constructor passes to
`BaseStratumClient.__init__`. -/
structure CollectorInit where
  serviceName : String
  websocketUrl : Value
  reconnectInterval : Value
  maxReconnectInterval : Value
  reconnectFactor : Value
  targetRegion : Value
  deriving Repr

/-- Embedding of `MempoolSpaceClient.__init__` (mempool_client.py lines
15-51): load the configuration (empty on failure) and resolve the URL,
target region and reconnect settings with hard-coded defaults. -/
def mempoolSpaceClient_init (cfgFile : Option Value) : Except PyErr CollectorInit := do
  let config := load_config cfgFile
  let collectors ← vget config "collectors" (.dict [])
  let services ← vget collectors "services" (.dict [])
  let serviceConfig ← vget services "mempool.space" (.dict [])
  let url ← vget serviceConfig "url" (.str "wss://mempool.space/stratum/ws")
  let targetRegion ← vget serviceConfig "target_region" (.str "global")
  let ri ← vget collectors "reconnect_interval" (.float 5)
  let mri ← vget collectors "max_reconnect_interval" (.float 60)
  let rf ← vget collectors "reconnect_factor" (.float (3/2))
  pure { serviceName := "mempool.space", websocketUrl := url,
         reconnectInterval := ri, maxReconnectInterval := mri,
         reconnectFactor := rf, targetRegion := targetRegion }

/-- Embedding of `MiningPoolObserver.__init__` (observer_client.py lines
13-50). The first executable statement of the body (line 31) reads the local
name `config`, but no statement assigns it — the `config =
self._load_config(config_path)` call present in the sibling client is
missing here, only its `# Load config` comment remains — so the read raises
NameError on every construction, before any default can apply. The rest of
the body (identical configuration resolution with the observer URL) is dead
code. -/
def miningPoolObserver_init (_cfgFile : Option Value) : Except PyErr CollectorInit := do
  -- `_load_config` is defined (line 51) but never called; the file is not read
  let config ← (.error (.nameError "config") : Except PyErr Value)
  let collectors ← vget config "collectors" (.dict [])
  let services ← vget collectors "services" (.dict [])
  let serviceConfig ← vget services "miningpool.observer" (.dict [])
  let url ← vget serviceConfig "url" (.str "wss://stratum.miningpool.observer/ws")
  let targetRegion ← vget serviceConfig "target_region" (.str "global")
  let ri ← vget collectors "reconnect_interval" (.float 5)
  let mri ← vget collectors "max_reconnect_interval" (.float 60)
  let rf ← vget collectors "reconnect_factor" (.float (3/2))
  pure { serviceName := "miningpool.observer", websocketUrl := url,
         reconnectInterval := ri, maxReconnectInterval := mri,
         reconnectFactor := rf, targetRegion := targetRegion }

/-! ## Unified schema (src/src/normalizers/schema.py) -/

/-- The hard-coded default schema (schema.py lines 26-46), installed when no
`schema_mappings.yml` configuration is found. -/
def defaultSchema : List (String × Value) :=
  [("source", .str ""), ("timestamp", .str ""), ("job_id", .str ""),
   ("mining_pool", .str ""), ("difficulty", .float 0),
   ("prev_block_hash", .str ""), ("coinbase_tx", .str ""),
   ("merkle_branches", .list []), ("version", .str ""), ("bits", .str ""),
   ("time", .int 0), ("height", .int 0), ("clean_jobs", .bool false),
   ("region", .dict [("source", .str ""), ("target", .str "")]),
   ("metadata", .dict [])]

/-- Embedding of `UnifiedJobSchema._copy_value`. The branches follow the
isinstance chain of the source in order: str, then (int, float), then bool,
then list, then dict, else None. The Python bool type is a subclass of int, so a
boolean default is captured by the `(int, float)` branch and copied as the
int literal `0`; the bool branch of the source is unreachable. -/
def copy_value : Value → Value
  | .str _ => .str ""
  | .int _ => .int 0
  | .float _ => .int 0
  | .bool _ => .int 0
  | .list _ => .list []
  | .dict _ => .dict []
  | .none => .none

/-- Embedding of `UnifiedJobSchema.create_empty` (lines 56-67): build a new
dict; dict-valued fields get a new inner dict whose entries are copied
per-subkey; every other field is copied with `_copy_value`. -/
def create_empty (schema : List (String × Value)) : List (String × Value) :=
  schema.map (fun kv =>
    match kv.2 with
    | .dict sub => (kv.1, .dict (sub.map (fun skv => (skv.1, copy_value skv.2))))
    | v => (kv.1, copy_value v))

/-- A value instrumented with heap identities: every Python list or dict
object carries the address at which it was allocated, which makes sharing
of mutable containers between two records observable in the embedding. -/
inductive AVal where
  | prim : Value → AVal
  | list : Nat → List AVal → AVal
  | dict : Nat → List (String × AVal) → AVal
  deriving Repr

/-- `_copy_value` with explicit allocation: its `[]` and (unreachable) dict
branches evaluate container literals, allocating a fresh object on every
call; scalar branches allocate nothing. -/
def copy_valueA : Value → Nat → AVal × Nat
  | .str _, c => (.prim (.str ""), c)
  | .int _, c => (.prim (.int 0), c)
  | .float _, c => (.prim (.int 0), c)
  | .bool _, c => (.prim (.int 0), c)
  | .list _, c => (.list c [], c + 1)
  | .dict _, c => (.dict c [], c + 1)
  | .none, c => (.prim .none, c)

/-- Allocation-instrumented copy of the entries of a dict-valued field
(`create_empty` lines 63-64). -/
def copySubfieldsA : List (String × Value) → Nat → List (String × AVal) × Nat
  | [], c => ([], c)
  | (k, v) :: rest, c =>
      let (av, c1) := copy_valueA v c
      let (restA, c2) := copySubfieldsA rest c1
      ((k, av) :: restA, c2)

/-- Allocation-instrumented iteration over the schema items
(`create_empty` lines 60-66): a dict-valued field first evaluates the dict
display `{}` (fresh inner dict), then copies its subvalues. -/
def create_emptyFieldsA : List (String × Value) → Nat → List (String × AVal) × Nat
  | [], c => ([], c)
  | (k, .dict sub) :: rest, c =>
      let (subA, c1) := copySubfieldsA sub (c + 1)
      let (restA, c2) := create_emptyFieldsA rest c1
      ((k, .dict c subA) :: restA, c2)
  | (k, v) :: rest, c =>
      let (av, c1) := copy_valueA v c
      let (restA, c2) := create_emptyFieldsA rest c1
      ((k, av) :: restA, c2)

/-- Allocation-instrumented `create_empty`: line 59 evaluates the dict
display for `empty_schema` itself (fresh outer dict at address `c`), then
fills it. -/
def create_emptyA (schema : List (String × Value)) (c : Nat) : AVal × Nat :=
  let fc := create_emptyFieldsA schema (c + 1)
  (.dict c fc.1, fc.2)

mutual

/-- Container addresses reachable from an instrumented value. -/
def AVal.ids : AVal → List Nat
  | .prim _ => []
  | .list i xs => i :: idsList xs
  | .dict i kvs => i :: idsPairs kvs

/-- Container addresses reachable from a list of instrumented values. -/
def idsList : List AVal → List Nat
  | [] => []
  | x :: xs => x.ids ++ idsList xs

/-- Container addresses reachable from instrumented dict entries. -/
def idsPairs : List (String × AVal) → List Nat
  | [] => []
  | kv :: kvs => kv.2.ids ++ idsPairs kvs

end

mutual

/-- Forgetting the heap identities of an instrumented value. -/
def AVal.erase : AVal → Value
  | .prim v => v
  | .list _ xs => .list (eraseList xs)
  | .dict _ kvs => .dict (erasePairs kvs)

/-- Forgetting heap identities in a list of instrumented values. -/
def eraseList : List AVal → List Value
  | [] => []
  | x :: xs => x.erase :: eraseList xs

/-- Forgetting heap identities in instrumented dict entries. -/
def erasePairs : List (String × AVal) → List (String × Value)
  | [] => []
  | kv :: kvs => (kv.1, kv.2.erase) :: erasePairs kvs

end

/-! ## Normalizer utilities (src/src/normalizers/utils.py) -/

/-- Python `str()` restricted to the scalar shapes that reach it in the
embedded code paths; the renderings of floats and containers are
stand-ins — no theorem in this file depends on the rendered text. -/
def pyStr : Value → String
  | .none => "None"
  | .bool b => if b then "True" else "False"
  | .int n => toString n
  | .float q => toString q
  | .str s => s
  | .list _ => "[...]"
  | .dict _ => "(dict)"

/-- Embedding of `safe_concat` (utils.py lines 55-69): stringify and
concatenate the arguments, skipping `None`. -/
def safe_concat (args : List Value) : Value :=
  .str (args.foldl (fun acc a =>
    match a with
    | .none => acc
    | _ => acc ++ pyStr a) "")

/-- Characters of the class `[a-zA-Z0-9_.]` in the array-index pattern of
`get_nested_value`. -/
def isPathChar (c : Char) : Bool :=
  c.isAlphanum || c = '_' || c = '.'

/-- Digit run to a number (`int(index)`). -/
def digitsToNat (ds : List Char) : Nat :=
  ds.foldl (fun n c => 10 * n + (c.toNat - 48)) 0

/-- Embedding of the `re.match` against `([a-zA-Z0-9_.]+)\[(\d+)\]`
(utils.py line 25): anchored at the start, a nonempty maximal run of path
characters (the class excludes the bracket, so the greedy run needs no
backtracking), an opening bracket, a nonempty digit run, a closing bracket;
`re.match` does not anchor the end, so trailing characters are allowed. -/
def parseArrayIndex (path : String) : Option (String × Nat) :=
  let cs := path.toList
  let base := cs.takeWhile isPathChar
  let rest := cs.dropWhile isPathChar
  match base, rest with
  | [], _ => Option.none
  | _ :: _, '[' :: rest1 =>
      let digits := rest1.takeWhile Char.isDigit
      let rest2 := rest1.dropWhile Char.isDigit
      match digits, rest2 with
      | [], _ => Option.none
      | _ :: _, ']' :: _ => some (String.mk base, digitsToNat digits)
      | _ :: _, _ => Option.none
  | _ :: _, _ => Option.none

/-- Python `path.split(".")`, split into an accumulator-passing helper so
every equation is structural. -/
def splitOnDotAux : List Char → List Char → List String
  | [], acc => [String.mk acc.reverse]
  | c :: rest, acc =>
      if c = '.' then String.mk acc.reverse :: splitOnDotAux rest []
      else splitOnDotAux rest (c :: acc)

/-- Python `path.split(".")`. -/
def splitOnDot (path : String) : List String :=
  splitOnDotAux path.toList []

/-- Raising list subscript `base_value[index]`. -/
def pyListSub (xs : List Value) (i : Nat) : Except PyErr Value :=
  if h : i < xs.length then .ok (xs.get ⟨i, h⟩) else .error .indexError

/-- The dotted-path walk of `get_nested_value` (utils.py lines 40-49):
descend through successive dict lookups, returning the default the moment a
segment is absent or the current value is not a dict. -/
def gnvDots (parts : List String) (current default : Value) : Value :=
  match parts with
  | [] => current
  | p :: rest =>
      match current with
      | .dict kvs =>
          match dlookup kvs p with
          | some v => gnvDots rest v default
          | Option.none => default
      | _ => default

/-- The `try` body of `get_nested_value` (lines 23-49), with the raising
subscript explicit. The recursive call `get_nested_value(data, base_path)`
re-runs the pattern match; `base_path` contains no bracket so the pattern
cannot match it, and that call reduces to the dotted walk with default
`None` — inlined here as such. -/
def get_nested_value_body (data : Value) (path : String) (default : Value) :
    Except PyErr Value :=
  match parseArrayIndex path with
  | some bi =>
      let baseValue := gnvDots (splitOnDot bi.1) data .none
      match baseValue with
      | .list xs =>
          if bi.2 < xs.length then pyListSub xs bi.2
          else .ok default
      | _ => .ok default
  | Option.none => .ok (gnvDots (splitOnDot path) data default)

/-- Embedding of `get_nested_value`: the body runs under `try`; any
internal error is caught (logged at debug level) and the default returned
(lines 51-53). -/
def get_nested_value (data : Value) (path : String) (default : Value) : Value :=
  match get_nested_value_body data path default with
  | .ok v => v
  | .error _ => default

/-! ## Fallback manual mappings (src/src/normalizers/observer_mapper.py,
mempool_mapper.py)

`_apply_manual_mapping(unified, message)` mutates the unified dict in
place; the embedding returns the updated dict. The observer version
performs only `.get` reads and top-level assignments, so it is total; the
mempool version also reads `unified["difficulty"]` (line 126),
`unified["height"]` (line 141), `unified["mining_pool"]` (line 149) and
assigns into `unified["metadata"]`, all of which can raise, so it returns
`Except`. -/

/-- The positional `mining.notify` assignments of the observer fallback
(observer_mapper.py lines 99-115). -/
def observerNotifyAssigns (unified : Job) (ps : List Value) : Job :=
  let u := unified
  let u := if 1 ≤ ps.length then dset u "job_id" (ps.getD 0 .none) else u
  let u := if 2 ≤ ps.length then dset u "prev_block_hash" (ps.getD 1 .none) else u
  let u := if 4 ≤ ps.length then
    dset u "coinbase_tx" (safe_concat [ps.getD 2 .none, ps.getD 3 .none]) else u
  let u := if 5 ≤ ps.length then dset u "merkle_branches" (ps.getD 4 .none) else u
  let u := if 6 ≤ ps.length then dset u "version" (ps.getD 5 .none) else u
  let u := if 7 ≤ ps.length then dset u "bits" (ps.getD 6 .none) else u
  let u := if 8 ≤ ps.length then dset u "time" (ps.getD 7 .none) else u
  let u := if 9 ≤ ps.length then dset u "clean_jobs" (ps.getD 8 .none) else u
  u

/-- Embedding of `MiningPoolObserverMapper._apply_manual_mapping`
(observer_mapper.py lines 86-127). The method dispatch handles only
`mining.notify`; there is no `mining.set_difficulty` branch. The pool block
always runs: with no `pool` key the default `{}` is a dict, so
`mining_pool` is set to `""` and `difficulty` to `0.0` unconditionally. -/
def observer_apply_manual_mapping (unified message : Job) : Job :=
  let method := dget message "method" (.str "")
  let params := dget message "params" (.list [])
  let unified :=
    match params with
    | .list ps =>
        if pyEq method (.str "mining.notify") then observerNotifyAssigns unified ps
        else unified
    | _ => unified
  let poolInfo := dget message "pool" (.dict [])
  let unified :=
    match poolInfo with
    | .dict pk =>
        let u := dset unified "mining_pool" (dget pk "name" (.str ""))
        dset u "difficulty" (dget pk "difficulty" (.float 0))
    | .str s => dset unified "mining_pool" (.str s)
    | _ => unified
  if dcontains message "height" then
    dset unified "height" (dget message "height" (.int 0))
  else unified

/-- Python `d[key]` on the unified dict (raises KeyError when absent). -/
def jsub (d : Job) (key : String) : Except PyErr Value :=
  match dlookup d key with
  | some v => .ok v
  | Option.none => .error (.keyError key)

/-- Python `unified[outer][inner] = v`: read the outer item, require a
dict, assign into it. -/
def jsubSet2 (u : Job) (outer inner : String) (v : Value) : Except PyErr Job := do
  let m ← jsub u outer
  match m with
  | .dict mk => pure (dset u outer (.dict (dset mk inner v)))
  | _ => .error (.typeError "item assignment")

/-- The positional `mining.notify` assignments of the mempool fallback
(mempool_mapper.py lines 100-116); unlike the observer version, the
merkle-branches assignment additionally requires `params[4]` to be a
list. -/
def mempoolNotifyAssigns (unified : Job) (ps : List Value) : Job :=
  let u := unified
  let u := if 1 ≤ ps.length then dset u "job_id" (ps.getD 0 .none) else u
  let u := if 2 ≤ ps.length then dset u "prev_block_hash" (ps.getD 1 .none) else u
  let u := if 4 ≤ ps.length then
    dset u "coinbase_tx" (safe_concat [ps.getD 2 .none, ps.getD 3 .none]) else u
  let u := if 5 ≤ ps.length && (ps.getD 4 .none matches .list _) then
    dset u "merkle_branches" (ps.getD 4 .none) else u
  let u := if 6 ≤ ps.length then dset u "version" (ps.getD 5 .none) else u
  let u := if 7 ≤ ps.length then dset u "bits" (ps.getD 6 .none) else u
  let u := if 8 ≤ ps.length then dset u "time" (ps.getD 7 .none) else u
  let u := if 9 ≤ ps.length then dset u "clean_jobs" (ps.getD 8 .none) else u
  u

/-- Embedding of `MempoolSpaceMapper._apply_manual_mapping`
(mempool_mapper.py lines 85-150): the `mining.notify` /
`mining.set_difficulty` dispatch, the pool block (which overwrites a falsy
difficulty only when the pool dict carries one), the height block, the
extensions block (metadata and height backfill), the pool_id block, and the
pool_name fallback. -/
def mempool_apply_manual_mapping (unified message : Job) : Except PyErr Job := do
  let method := dget message "method" (.str "")
  let params := dget message "params" (.list [])
  let unified :=
    match params with
    | .list ps =>
        if pyEq method (.str "mining.notify") then mempoolNotifyAssigns unified ps
        else if pyEq method (.str "mining.set_difficulty") && decide (1 ≤ ps.length) then
          dset unified "difficulty" (ps.getD 0 .none)
        else unified
    | _ => unified
  let poolInfo := dget message "pool" (.dict [])
  let unified ←
    match poolInfo with
    | .dict pk => do
        let u := dset unified "mining_pool" (dget pk "name" (.str ""))
        let d ← jsub u "difficulty"
        if !(pyTruthy d) && dcontains pk "difficulty" then
          pure (dset u "difficulty" (dget pk "difficulty" (.float 0)))
        else pure u
    | .str s => pure (dset unified "mining_pool" (.str s))
    | _ => pure unified
  let unified :=
    if dcontains message "height" then
      dset unified "height" (dget message "height" (.int 0))
    else unified
  let unified ←
    if dcontains message "extensions" then do
      let u ← jsubSet2 unified "metadata" "extensions" (dget message "extensions" (.dict []))
      let h ← jsub u "height"
      let extHasHeight :=
        match dget message "extensions" (.dict []) with
        | .dict ek => dcontains ek "height"
        | _ => false
      if !(pyTruthy h) && extHasHeight then
        let ex :=
          match dget message "extensions" (.dict []) with
          | .dict ek => dget ek "height" (.int 0)
          | _ => .int 0
        pure (dset u "height" ex)
      else pure u
    else pure unified
  let unified ←
    if dcontains message "pool_id" then
      jsubSet2 unified "metadata" "pool_id" (dgetN message "pool_id")
    else pure unified
  let mp ← jsub unified "mining_pool"
  if !(pyTruthy mp) && dcontains message "pool_name" then
    pure (dset unified "mining_pool" (dget message "pool_name" (.str "")))
  else pure unified

/-! ## Stats calculator agreement rates (src/src/analysis/stats_calculator.py) -/

/-- Python `min(service_counts.get(service, 0) for service in services)`;
the generator is nonempty whenever evaluated (the caller has checked
`len(services) >= 2`). -/
def minServiceCount (serviceCounts : List (String × Nat)) : List String → Nat
  | [] => 0
  | s :: rest =>
      rest.foldl (fun m t => Nat.min m ((alookup serviceCounts t).getD 0))
        ((alookup serviceCounts s).getD 0)

/-- Embedding of `StatsCalculator._update_agreement_rates` (lines 110-132):
count jobs per service from `by_service`; for every agreement combination
of at least two feeds whose minimum per-feed count is positive, record
count divided by that minimum; a combination whose minimum is zero gets no
entry (no division occurs). -/
def update_agreement_rates (byService : List (String × List α))
    (agreementCounts : List (List String × Nat)) : List (List String × ℚ) :=
  let serviceCounts := byService.map (fun e => (e.1, e.2.length))
  agreementCounts.filterMap (fun sc =>
    if sc.1.length < 2 then Option.none
    else
      let minC := minServiceCount serviceCounts sc.1
      if 0 < minC then some (sc.1, (sc.2 : ℚ) / (minC : ℚ))
      else Option.none)

/-! ## Concrete inputs used by the theorems below -/

/-- An observer-feed job carrying only identifying fields. -/
def c2JobA : Job :=
  [("source", .str "miningpool.observer"), ("job_id", .str "j1"), ("mining_pool", .str "p")]

/-- The same logical job as seen on the mempool.space feed. -/
def c2JobB : Job :=
  [("source", .str "mempool.space"), ("job_id", .str "j1"), ("mining_pool", .str "p")]

/-- An unrelated observer-feed job (no field in common with the two
above). -/
def c2JobC : Job :=
  [("source", .str "miningpool.observer"), ("job_id", .str "x9"), ("mining_pool", .str "q"),
   ("prev_block_hash", .str "zz"), ("version", .str "v9"), ("bits", .str "b9"),
   ("time", .int 99), ("height", .int 5)]

/-- A fully populated observer-feed job. -/
def jW : Job :=
  [("source", .str "miningpool.observer"), ("job_id", .str "j1"), ("mining_pool", .str "poolA"),
   ("prev_block_hash", .str "p1"), ("version", .str "v1"), ("bits", .str "b1"),
   ("time", .int 1), ("height", .int 10)]

/-- Same job_id and mining_pool as `jW`; every other field differs. -/
def jW1 : Job :=
  [("source", .str "mempool.space"), ("job_id", .str "j1"), ("mining_pool", .str "poolA"),
   ("prev_block_hash", .str "p2"), ("version", .str "v2"), ("bits", .str "b2"),
   ("time", .int 2), ("height", .int 11)]

/-- Agrees with `jW` only on version, bits and time. -/
def jW2 : Job :=
  [("source", .str "mempool.space"), ("job_id", .str "j2"), ("mining_pool", .str "poolB"),
   ("prev_block_hash", .str "p2"), ("version", .str "v1"), ("bits", .str "b1"),
   ("time", .int 1), ("height", .int 11)]

/-- Agrees with `jW` only on prev_block_hash and (truthy) height. -/
def jW3 : Job :=
  [("source", .str "mempool.space"), ("job_id", .str "j2"), ("mining_pool", .str "poolB"),
   ("prev_block_hash", .str "p1"), ("version", .str "v2"), ("bits", .str "b2"),
   ("time", .int 2), ("height", .int 10)]

/-- An empty unified job tagged for the observer feed, as a mapper builds
it from the default schema. -/
def defaultJobObs : Job :=
  dset (create_empty defaultSchema) "source" (.str "miningpool.observer")

/-- An empty unified job tagged for the mempool.space feed. -/
def defaultJobMp : Job :=
  dset (create_empty defaultSchema) "source" (.str "mempool.space")

/-- A database with one clearly out-of-window document (timestamp 1) and
one in-window document (timestamp 999999) in each collection, against a
present time of 1000000. -/
def dbExample : DbState where
  rawMessages := [1, 999999]
  normalizedJobs := [1, 999999]
  jobMatches := [1, 999999]
  stats := [1, 999999]

/-- A plain `mining.set_difficulty` stratum message with one parameter. -/
def setDiffMsg : Job :=
  [("method", .str "mining.set_difficulty"), ("params", .list [.float 32])]

/-- Current-window job records: feed A with 10 jobs, feed B with 5. -/
def byServiceW : List (String × List Nat) :=
  [("A", List.replicate 10 0), ("B", List.replicate 5 0)]

/-- Three recorded agreements between exactly the feeds A and B. -/
def agreementCountsW : List (List String × Nat) := [(["A", "B"], 3)]

/-! ## Helper lemmas -/

theorem dlookup_dset_self (d : Job) (k : String) (v : Value) :
    dlookup (dset d k v) k = some v := by
  induction d with
  | nil => simp [dset, dlookup, alookup]
  | cons kv rest ih =>
      by_cases h : kv.1 = k
      · simp [dset, h, dlookup, alookup]
      · simp [dset, h, dlookup, alookup]
        simpa [dlookup] using ih

theorem dlookup_dset_ne (d : Job) {k k2 : String} (v : Value) (h : ¬ k = k2) :
    dlookup (dset d k v) k2 = dlookup d k2 := by
  induction d with
  | nil => simp [dset, dlookup, alookup, h]
  | cons kv rest ih =>
      by_cases hk : kv.1 = k
      · simp [dset, hk, dlookup, alookup, h]
      · simp only [dset, hk, if_false, dlookup, alookup]
        by_cases hk2 : kv.1 = k2
        · simp [hk2]
        · simpa [hk2, dlookup] using ih

theorem dget_dset_self (d : Job) (k : String) (v dflt : Value) :
    dget (dset d k v) k dflt = v := by
  simp [dget, dlookup_dset_self]

theorem dget_dset_ne (d : Job) {k k2 : String} (v dflt : Value) (h : ¬ k = k2) :
    dget (dset d k v) k2 dflt = dget d k2 dflt := by
  simp [dget, dlookup_dset_ne d v h]

theorem recordMatches_recentJobs (st : CompState) (now : ℚ) (job : Job)
    (found : List Job) : (recordMatches st now job found).recentJobs = st.recentJobs := by
  unfold recordMatches
  split <;> rfl

theorem recordMatches_length_le (st : CompState) (now : ℚ) (job : Job)
    (found : List Job) (hws : 0 < st.windowSize)
    (h : st.jobMatches.length ≤ st.windowSize) :
    (recordMatches st now job found).jobMatches.length ≤ st.windowSize := by
  simp only [recordMatches, lastN]
  split
  · exact h
  · split
    next hlt =>
      rw [if_neg (by omega)]
      simp only [List.length_drop]
      omega
    next hge =>
      simp only [List.length_append, List.length_cons, List.length_nil] at hge ⊢
      omega

theorem dlookup_nil (k : String) : dlookup [] k = Option.none := rfl

theorem dcontains_nil (k : String) : dcontains [] k = false := rfl

theorem connectLoop_no_waits (initial : ℚ) (outcomes : List Bool) (ri : ℚ) :
    (connectLoop initial outcomes ri).2 = [] := by
  induction outcomes generalizing ri with
  | nil => rfl
  | cons o rest ih => simpa [connectLoop] using ih _

theorem recordMatches_timeWindow (st : CompState) (now : ℚ) (job : Job)
    (found : List Job) : (recordMatches st now job found).timeWindow = st.timeWindow := by
  unfold recordMatches
  split <;> rfl

theorem processJob_shape (st : CompState) (job : Job) (now cutoff : ℚ) (s : String)
    (hs : dgetN job "source" = .str s)
    (hl : (alookup st.recentJobs s).isSome = true)
    (hc : now - st.timeWindow = cutoff) :
    processJob st job now =
      (recordMatches
        { st with
          jobsProcessed := st.jobsProcessed + 1
          recentJobs := (appendJob st.recentJobs s (dset job "_processed_at" (.float now))).map
            (fun entry => (entry.1, entry.2.filter (fun j => cutoff ≤ processedAt j))) }
        now (dset job "_processed_at" (.float now))
        (findMatchingJobs
          ((appendJob st.recentJobs s (dset job "_processed_at" (.float now))).map
            (fun entry => (entry.1, entry.2.filter (fun j => cutoff ≤ processedAt j))))
          s (dset job "_processed_at" (.float now))),
       findMatchingJobs
        ((appendJob st.recentJobs s (dset job "_processed_at" (.float now))).map
          (fun entry => (entry.1, entry.2.filter (fun j => cutoff ≤ processedAt j))))
        s (dset job "_processed_at" (.float now))) := by
  simp [processJob, hs, hl, cleanOldJobs, hc]

/-! ## Claim theorems -/

/-- C9: `get_nested_value` is total and never propagates an error — for
every input map, path string and default, the try body returns normally, so
the except clause never fires and a value is always returned; in
particular, the path pool.name resolves to Foo, params[1] resolves to the
second list element, and missing.path on an empty map returns the default
without raising. -/
theorem get_nested_value_total_and_examples :
    (∀ (data : Value) (path : String) (default : Value),
      ∃ v, get_nested_value_body data path default = .ok v)
    ∧ get_nested_value (.dict [("pool", .dict [("name", .str "Foo")])]) "pool.name" .none
        = .str "Foo"
    ∧ get_nested_value (.dict [("params", .list [.str "a", .str "b"])]) "params[1]" .none
        = .str "b"
    ∧ get_nested_value (.dict []) "missing.path" (.str "default") = .str "default" := by
  refine ⟨?_, rfl, rfl, rfl⟩
  intro data path default
  unfold get_nested_value_body
  cases hp : parseArrayIndex path with
  | none => exact ⟨_, rfl⟩
  | some bi =>
      cases hb : gnvDots (splitOnDot bi.1) data .none with
      | list xs =>
          by_cases hlt : bi.2 < xs.length
          · exact ⟨xs.get ⟨bi.2, hlt⟩, by simp [hb, hlt, pyListSub]⟩
          · exact ⟨default, by simp [hb, hlt]⟩
      | none => exact ⟨default, by simp [hb]⟩
      | bool b => exact ⟨default, by simp [hb]⟩
      | int n => exact ⟨default, by simp [hb]⟩
      | float q => exact ⟨default, by simp [hb]⟩
      | str s => exact ⟨default, by simp [hb]⟩
      | dict kvs => exact ⟨default, by simp [hb]⟩

/-- C5: constructing the miningpool.observer client raises NameError — its
body reads the name config, which no statement assigns, so construction
fails even (and in particular) when the configuration file is absent —
while the mempool.space client constructor succeeds with the hard-coded
fallback URL, target region and default intervals 5.0 / 60.0 / 1.5. The
claim that every feed collector is constructible without configuration
therefore fails for the observer client. -/
theorem collector_init_config_absent :
    miningPoolObserver_init Option.none = .error (.nameError "config")
    ∧ mempoolSpaceClient_init Option.none =
        .ok { serviceName := "mempool.space",
              websocketUrl := .str "wss://mempool.space/stratum/ws",
              reconnectInterval := .float 5, maxReconnectInterval := .float 60,
              reconnectFactor := .float (3/2), targetRegion := .str "global" } :=
  ⟨rfl, rfl⟩

/-- C4: the retention cleanup deletes nothing, for every database state,
clock and day count: computing the cutoff raises AttributeError (db.py
imports only the datetime class, which has no timedelta attribute), the
surrounding try swallows it, and every collection is returned unchanged.
In particular a document with timestamp 1, far older than any cutoff at
clock 1000000 with days_to_keep 7, survives the cleanup that the claim
says deletes it. -/
theorem cleanup_old_data_deletes_nothing :
    (∀ (db : DbState) (now : ℚ) (daysToKeep : Int),
      cleanup_old_data db now daysToKeep = db)
    ∧ (1 : ℚ) ∈ (cleanup_old_data dbExample 1000000 7).rawMessages := by
  constructor
  · intro db now daysToKeep
    rfl
  · show (1 : ℚ) ∈ dbExample.rawMessages
    simp [dbExample]

/-- C3: the backoff block of connect sits outside the while loop, so no
wait is ever performed between connection attempts, whatever the client
settings and the outcome sequence; for the default client (initial 5.0 s,
factor 1.5, cap 60.0 s) and two consecutive failed attempts, the waits the
claim requires (5.0 s then 7.5 s) never happen — the only sleep occurs
once, after stop() has ended the loop, for 5.0 s, after which the stored
interval is 7.5 s. -/
theorem connect_backoff_outside_loop :
    (∀ (st : ClientState) (outcomes : List Bool), (connect st outcomes).2.1 = [])
    ∧ (connect (ClientState.mk0 5 60 (3/2)) [false, false]).2.1 = []
    ∧ (connect (ClientState.mk0 5 60 (3/2)) [false, false]).2.2 = 5
    ∧ (connect (ClientState.mk0 5 60 (3/2)) [false, false]).1.reconnectInterval = 15/2 := by
  refine ⟨?_, rfl, rfl, ?_⟩
  · intro st outcomes
    simp [connect, connectLoop_no_waits]
  · show min ((5 : ℚ) * (3/2)) 60 = 15/2
    rw [min_eq_left (by norm_num)]
    norm_num

/-- C1: two jobs with identical job_id and mining_pool score exactly 10 —
reaching the threshold — even when prev_block_hash, height, version, bits
and time all differ, and the job is reported as a match by the cache walk
of _find_matching_jobs; two jobs agreeing only on version, bits and time
score 6 and are not reported; two jobs agreeing only on prev_block_hash
and a truthy height score 13 and are reported. In each reported part the
candidate sits in the mempool.space cache entry while the processed job
comes from the miningpool.observer feed. -/
theorem comparator_match_scores :
    (∀ jA jB : Job,
      pyEq (dgetN jA "job_id") (dgetN jB "job_id") = true →
      pyEq (dgetN jA "mining_pool") (dgetN jB "mining_pool") = true →
      pyEq (dgetN jA "prev_block_hash") (dgetN jB "prev_block_hash") = false →
      pyEq (dgetN jA "height") (dgetN jB "height") = false →
      pyEq (dgetN jA "version") (dgetN jB "version") = false →
      pyEq (dgetN jA "bits") (dgetN jB "bits") = false →
      pyEq (dgetN jA "time") (dgetN jB "time") = false →
      matchScore jA jB = 10 ∧
      findMatchingJobs [("miningpool.observer", []), ("stratum.work", []),
        ("mempool.space", [jB])] "miningpool.observer" jA = [jB])
    ∧ (∀ jA jB : Job,
      (pyEq (dgetN jA "job_id") (dgetN jB "job_id")
        && pyEq (dgetN jA "mining_pool") (dgetN jB "mining_pool")) = false →
      pyEq (dgetN jA "prev_block_hash") (dgetN jB "prev_block_hash") = false →
      (pyTruthy (dgetN jA "height")
        && pyEq (dgetN jA "height") (dgetN jB "height")) = false →
      pyEq (dgetN jA "version") (dgetN jB "version") = true →
      pyEq (dgetN jA "bits") (dgetN jB "bits") = true →
      pyEq (dgetN jA "time") (dgetN jB "time") = true →
      matchScore jA jB = 6 ∧
      findMatchingJobs [("miningpool.observer", []), ("stratum.work", []),
        ("mempool.space", [jB])] "miningpool.observer" jA = [])
    ∧ (∀ jA jB : Job,
      (pyEq (dgetN jA "job_id") (dgetN jB "job_id")
        && pyEq (dgetN jA "mining_pool") (dgetN jB "mining_pool")) = false →
      pyEq (dgetN jA "prev_block_hash") (dgetN jB "prev_block_hash") = true →
      pyTruthy (dgetN jA "height") = true →
      pyEq (dgetN jA "height") (dgetN jB "height") = true →
      pyEq (dgetN jA "version") (dgetN jB "version") = false →
      pyEq (dgetN jA "bits") (dgetN jB "bits") = false →
      pyEq (dgetN jA "time") (dgetN jB "time") = false →
      matchScore jA jB = 13 ∧
      findMatchingJobs [("miningpool.observer", []), ("stratum.work", []),
        ("mempool.space", [jB])] "miningpool.observer" jA = [jB]) := by
  refine ⟨?_, ?_, ?_⟩
  · intro jA jB h1 h2 h3 h4 h5 h6 h7
    have hs : matchScore jA jB = 10 := by
      simp [matchScore, h1, h2, h3, h4, h5, h6, h7]
    exact ⟨hs, by simp [findMatchingJobs, firstMatch, List.find?, hs]⟩
  · intro jA jB h1 h2 h3 h4 h5 h6
    have hs : matchScore jA jB = 6 := by
      simp [matchScore, h1, h2, h3, h4, h5, h6]
    exact ⟨hs, by simp [findMatchingJobs, firstMatch, List.find?, hs]⟩
  · intro jA jB h1 h2 h3 h4 h5 h6 h7
    have hs : matchScore jA jB = 13 := by
      simp [matchScore, h1, h2, h3, h4, h5, h6, h7]
    exact ⟨hs, by simp [findMatchingJobs, firstMatch, List.find?, hs]⟩

/-- Witness for C1 at concrete jobs jW, jW1, jW2, jW3. -/
theorem comparator_match_scores_witness :
    (matchScore jW jW1 = 10 ∧ findMatchingJobs [("miningpool.observer", []),
      ("stratum.work", []), ("mempool.space", [jW1])] "miningpool.observer" jW = [jW1])
    ∧ (matchScore jW jW2 = 6 ∧ findMatchingJobs [("miningpool.observer", []),
      ("stratum.work", []), ("mempool.space", [jW2])] "miningpool.observer" jW = [])
    ∧ (matchScore jW jW3 = 13 ∧ findMatchingJobs [("miningpool.observer", []),
      ("stratum.work", []), ("mempool.space", [jW3])] "miningpool.observer" jW = [jW3]) :=
  ⟨comparator_match_scores.1 jW jW1 (by decide) (by decide) (by decide) (by decide)
      (by decide) (by decide) (by decide),
   comparator_match_scores.2.1 jW jW2 (by decide) (by decide) (by decide) (by decide)
      (by decide) (by decide),
   comparator_match_scores.2.2 jW jW3 (by decide) (by decide) (by decide) (by decide)
      (by decide) (by decide) (by decide)⟩

/-- C10: the prev_block_hash (+8), version (+2), bits (+2) and time (+2)
comparisons of the scoring carry no non-emptiness precondition, so any two
jobs both holding the schema defaults in those four fields (empty strings
and block time 0) score at least 14, whatever their other fields; and a
full process_job run on two default-schema jobs from different feeds
(sharing no real identifying data) reports the first as a match of the
second. -/
theorem default_fields_reach_threshold :
    (∀ jA jB : Job,
      dgetN jA "prev_block_hash" = .str "" → dgetN jB "prev_block_hash" = .str "" →
      dgetN jA "version" = .str "" → dgetN jB "version" = .str "" →
      dgetN jA "bits" = .str "" → dgetN jB "bits" = .str "" →
      dgetN jA "time" = .int 0 → dgetN jB "time" = .int 0 →
      14 ≤ matchScore jA jB)
    ∧ (processJob (processJob (CompState.init 300 200) defaultJobObs 0).1 defaultJobMp 1).2
        = [dset defaultJobObs "_processed_at" (.float 0)] := by
  constructor
  · intro jA jB h1 h2 h3 h4 h5 h6 h7 h8
    have e1 : pyEq (dgetN jA "prev_block_hash") (dgetN jB "prev_block_hash") = true := by
      rw [h1, h2]; rfl
    have e2 : pyEq (dgetN jA "version") (dgetN jB "version") = true := by
      rw [h3, h4]; rfl
    have e3 : pyEq (dgetN jA "bits") (dgetN jB "bits") = true := by
      rw [h5, h6]; rfl
    have e4 : pyEq (dgetN jA "time") (dgetN jB "time") = true := by
      rw [h7, h8]; rfl
    simp only [matchScore, e1, e2, e3, e4, if_true]
    split_ifs <;> omega
  · rw [processJob_shape (CompState.init 300 200) defaultJobObs 0 (-300)
      "miningpool.observer" rfl rfl (by show (0:ℚ) - 300 = -300; norm_num)]
    rw [processJob_shape _ defaultJobMp 1 (-299) "mempool.space" rfl (by decide)
      (by simp only [recordMatches_timeWindow, CompState.init]; norm_num)]
    rfl

/-- Witness for C10 at the two default-schema jobs. -/
theorem default_fields_reach_threshold_witness :
    14 ≤ matchScore defaultJobObs defaultJobMp :=
  default_fields_reach_threshold.1 defaultJobObs defaultJobMp
    rfl rfl rfl rfl rfl rfl rfl rfl

/-- C2 counterexample: the live structures are not simultaneously
count-capped and time-bounded. First run (default window_size 200,
time_window 300): after a process_job call at clock 400, the match history
still holds the record created at clock 1, which is 399 s old — older than
time_window relative to the processing clock. Second run (window_size 1):
after two process_job calls at the same clock the observer cache entry
holds 2 records, above window_size. -/
theorem comparator_window_claim_false :
    ((processJob (processJob (processJob (CompState.init 300 200) c2JobA 0).1 c2JobB 1).1
        c2JobC 400).1.jobMatches.map (fun r => r.createdAt) = [1]
      ∧ (1 : ℚ) < 400 - 300)
    ∧ ((alookup (processJob (processJob (CompState.init 300 1) c2JobA 0).1 c2JobA 0).1.recentJobs
        "miningpool.observer").map (fun l => l.length) = some 2
      ∧ 1 < 2) := by
  refine ⟨⟨?_, by norm_num⟩, ⟨?_, by norm_num⟩⟩
  · rw [processJob_shape (CompState.init 300 200) c2JobA 0 (-300) "miningpool.observer"
      rfl rfl (by show (0:ℚ) - 300 = -300; norm_num)]
    rw [processJob_shape _ c2JobB 1 (-299) "mempool.space" rfl (by decide)
      (by simp only [recordMatches_timeWindow, CompState.init]; norm_num)]
    rw [processJob_shape _ c2JobC 400 100 "miningpool.observer" rfl (by decide)
      (by simp only [recordMatches_timeWindow, CompState.init]; norm_num)]
    rfl
  · rw [processJob_shape (CompState.init 300 1) c2JobA 0 (-300) "miningpool.observer"
      rfl rfl (by show (0:ℚ) - 300 = -300; norm_num)]
    rw [processJob_shape _ c2JobA 0 (-300) "miningpool.observer" rfl (by decide)
      (by simp only [recordMatches_timeWindow, CompState.init]; norm_num)]
    rfl

/-- C2 amended: after every process_job call that accepts its job (the
source names one of the known feed caches), every record in every per-feed
cache entry carries a processing timestamp within time_window of the clock
of the call — the job cache is time-bounded — and, for a positive
window_size (default 200; with window_size 0 the slice `[-0:]` keeps the
whole list and the cap fails), whenever the match history held at most
window_size records before the call, it still does after it — the match
history is count-capped. (The cache is not count-capped, and the match
history is not time-bounded.) -/
theorem comparator_window_invariants (st : CompState) (job : Job) (now : ℚ)
    (hws : 0 < st.windowSize)
    (hmh : st.jobMatches.length ≤ st.windowSize) :
    (∀ s, dgetN job "source" = .str s → (alookup st.recentJobs s).isSome = true →
      ∀ entry ∈ (processJob st job now).1.recentJobs, ∀ j ∈ entry.2,
        now - st.timeWindow ≤ processedAt j)
    ∧ (processJob st job now).1.jobMatches.length ≤ st.windowSize := by
  constructor
  · intro s hs hl entry hentry j hj
    rw [processJob_shape st job now (now - st.timeWindow) s hs hl rfl] at hentry
    simp only [recordMatches_recentJobs, List.mem_map] at hentry
    obtain ⟨e0, he0, rfl⟩ := hentry
    simp only [List.mem_filter] at hj
    exact of_decide_eq_true hj.2
  · rcases hsv : dgetN job "source" with _ | b | n | q | sv | l | d
    case str =>
        by_cases hl : (alookup st.recentJobs sv).isSome = true
        · rw [processJob_shape st job now (now - st.timeWindow) sv hsv hl rfl]
          exact recordMatches_length_le _ now _ _ hws hmh
        · simp only [processJob, hsv, Bool.not_eq_true] at hl ⊢
          simp [hl, hmh]
    all_goals simp [processJob, hsv, hmh]

/-- Witness for C2 (amended) at the initial comparator state and a concrete
job. -/
theorem comparator_window_invariants_witness :
    (∀ s, dgetN jW "source" = .str s →
      (alookup (CompState.init 300 200).recentJobs s).isSome = true →
      ∀ entry ∈ (processJob (CompState.init 300 200) jW 0).1.recentJobs, ∀ j ∈ entry.2,
        0 - (CompState.init 300 200).timeWindow ≤ processedAt j)
    ∧ (processJob (CompState.init 300 200) jW 0).1.jobMatches.length
        ≤ (CompState.init 300 200).windowSize :=
  comparator_window_invariants (CompState.init 300 200) jW 0 (by decide) (by decide)

/-- C6 counterexample: on the default schema, create_empty yields
clean_jobs = 0 — the Python int, produced by the isinstance (int, float)
branch of _copy_value, which captures booleans because bool is a subclass
of int — not the boolean False the claim states (the bool branch is
unreachable). -/
theorem create_empty_clean_jobs_not_bool :
    ¬ (dgetN (create_empty defaultSchema) "clean_jobs" = .bool false) := by
  intro h
  have h0 : dgetN (create_empty defaultSchema) "clean_jobs" = .int 0 := rfl
  rw [h0] at h
  exact Value.noConfusion h

/-- C6 amended: create_empty on the default schema returns exactly the
record with every string field empty, every numeric field 0, clean_jobs
the falsy INTEGER 0 (not a bool — the isinstance (int, float) branch
captures booleans), merkle_branches an empty list, region.source and
region.target empty strings and metadata an empty map; the
allocation-instrumented embedding erases to the same record, and two
records created in sequence share no container address — mutating the
merkle_branches, region or metadata of one cannot affect the other. -/
theorem create_empty_default_values :
    create_empty defaultSchema =
      [("source", .str ""), ("timestamp", .str ""), ("job_id", .str ""),
       ("mining_pool", .str ""), ("difficulty", .int 0), ("prev_block_hash", .str ""),
       ("coinbase_tx", .str ""), ("merkle_branches", .list []), ("version", .str ""),
       ("bits", .str ""), ("time", .int 0), ("height", .int 0), ("clean_jobs", .int 0),
       ("region", .dict [("source", .str ""), ("target", .str "")]),
       ("metadata", .dict [])]
    ∧ (create_emptyA defaultSchema 0).1.erase = .dict (create_empty defaultSchema)
    ∧ (create_emptyA defaultSchema (create_emptyA defaultSchema 0).2).1.erase
        = .dict (create_empty defaultSchema)
    ∧ ((create_emptyA defaultSchema 0).1.ids).all
        (fun i =>
          !(((create_emptyA defaultSchema (create_emptyA defaultSchema 0).2).1.ids).contains i))
        = true :=
  ⟨rfl, rfl, rfl, by decide⟩

/-- C7 counterexample: the observer fallback mapper has no
mining.set_difficulty branch; on a plain set_difficulty message with
parameter 32.0 it leaves difficulty at 0.0 (reset by the pool-info branch,
whose default empty dict is still a dict), so the difficulty field does not
equal the single parameter for that mapper, contrary to the claim made for
both mappers. -/
theorem observer_ignores_set_difficulty :
    ¬ (dgetN (observer_apply_manual_mapping (create_empty defaultSchema) setDiffMsg)
        "difficulty" = .float 32) := by
  intro h
  have h0 : dgetN (observer_apply_manual_mapping (create_empty defaultSchema) setDiffMsg)
      "difficulty" = .float 0 := rfl
  rw [h0] at h
  injection h with h32
  exact absurd h32 (by norm_num)

/-- C7 amended: in the configuration-less fallback mapping, a plain
mining.set_difficulty message (at least one parameter, and no pool,
extensions or pool_id entries) yields, through the mempool.space mapper, a
unified job whose difficulty equals the single parameter — the mapping
succeeds without raising — while the observer mapper leaves difficulty at
the float 0.0 for the same message. -/
theorem mempool_set_difficulty_maps (unified message : Job) (d : Value)
    (rest : List Value)
    (hm : dget message "method" (.str "") = .str "mining.set_difficulty")
    (hp : dget message "params" (.list []) = .list (d :: rest))
    (hpool : dcontains message "pool" = false)
    (hext : dcontains message "extensions" = false)
    (hpid : dcontains message "pool_id" = false) :
    Except.map (fun u => dgetN u "difficulty") (mempool_apply_manual_mapping unified message)
      = .ok d
    ∧ dgetN (observer_apply_manual_mapping unified message) "difficulty" = .float 0 := by
  have hpool' : dget message "pool" (.dict []) = .dict [] := by
    rcases hx : dlookup message "pool" with _ | v
    · simp [dget, hx]
    · rw [dcontains, hx] at hpool; cases hpool
  constructor
  · by_cases hh : dcontains message "height" = true
    all_goals by_cases hpn : dcontains message "pool_name" = true
    all_goals unfold mempool_apply_manual_mapping
    all_goals rw [hm, hp, hpool']
    all_goals
      simp [pyEq, jsub, jsubSet2, Except.map, Except.bind, Bind.bind, pure, Except.pure,
        hext, hpid, hh, hpn, dcontains_nil,
        dlookup_dset_self, dlookup_dset_ne, dget_dset_self, dget_dset_ne,
        dlookup_nil, dget, dgetN, pyTruthy]
  · by_cases hh : dcontains message "height" = true
    all_goals unfold observer_apply_manual_mapping
    all_goals rw [hm, hp, hpool']
    all_goals
      simp [pyEq, hh, dlookup_dset_self, dlookup_dset_ne, dget_dset_self, dget_dset_ne,
        dlookup_nil, dget, dgetN]

/-- Witness for C7 (amended) at an empty unified job and the concrete
set_difficulty message with parameter 32.0. -/
theorem mempool_set_difficulty_maps_witness :
    Except.map (fun u => dgetN u "difficulty")
      (mempool_apply_manual_mapping (create_empty defaultSchema) setDiffMsg)
      = .ok (.float 32)
    ∧ dgetN (observer_apply_manual_mapping (create_empty defaultSchema) setDiffMsg)
        "difficulty" = .float 0 :=
  mempool_set_difficulty_maps (create_empty defaultSchema) setDiffMsg (.float 32) []
    rfl rfl (by decide) (by decide) (by decide)

/-- C8: for any current-window per-feed record lists and agreement counter,
every recorded combination of at least two feeds whose minimum per-feed job
count is positive gets the agreement rate count divided by that minimum,
and a combination whose minimum per-feed count is zero gets no rate entry
at all (no division occurs). -/
theorem agreement_rate_formula {α : Type} (byService : List (String × List α))
    (agreementCounts : List (List String × Nat)) (services : List String) (count : Nat)
    (hmem : (services, count) ∈ agreementCounts)
    (hlen : 2 ≤ services.length) :
    (0 < minServiceCount (byService.map (fun e => (e.1, e.2.length))) services →
      (services, (count : ℚ) /
          (minServiceCount (byService.map (fun e => (e.1, e.2.length))) services : ℚ))
        ∈ update_agreement_rates byService agreementCounts)
    ∧ (minServiceCount (byService.map (fun e => (e.1, e.2.length))) services = 0 →
      ∀ r, (services, r) ∉ update_agreement_rates byService agreementCounts) := by
  constructor
  · intro hpos
    unfold update_agreement_rates
    refine List.mem_filterMap.2 ⟨(services, count), hmem, ?_⟩
    have h2 : ¬ services.length < 2 := by omega
    simp [h2, hpos]
  · intro h0 r hr
    unfold update_agreement_rates at hr
    obtain ⟨⟨s, c⟩, hsc, hf⟩ := List.mem_filterMap.1 hr
    by_cases h2 : s.length < 2
    · simp [h2] at hf
    · by_cases hp : 0 < minServiceCount (byService.map (fun e => (e.1, e.2.length))) s
      · simp [h2, hp] at hf
        obtain ⟨hs, hr2⟩ := hf
        subst hs
        omega
      · simp [h2, hp] at hf

/-- Witness for C8: feed A with 10 jobs, feed B with 5, three agreements
between exactly A and B — the rate entry divides 3 by the smaller count 5
(so the rate is 3/5 = 0.6). -/
theorem agreement_rate_formula_witness :
    (["A", "B"], ((3 : Nat) : ℚ) /
        ((minServiceCount (byServiceW.map (fun e => (e.1, e.2.length))) ["A", "B"] : Nat) : ℚ))
      ∈ update_agreement_rates byServiceW agreementCountsW
    ∧ minServiceCount (byServiceW.map (fun e => (e.1, e.2.length))) ["A", "B"] = 5 :=
  ⟨(agreement_rate_formula byServiceW agreementCountsW ["A", "B"] 3
      (by decide) (by decide)).1 (by decide),
   by decide⟩

end BSA
